import Mathlib

/-
Verification development for the Soapbox ephemeral voice-channel lifecycle
manager (src/soapbox/soapbox.py and src/soapbox/permissions_checks.py).

The Python cog is shallowly embedded as pure Lean functions:
  * the per-guild configuration dict (`guild_config_cache[guild.id]`, a JSON
    dict with the four keys "trigger_channel", "category",
    "user_max_channels", "suffix") becomes the record `GuildConfig` whose
    fields are `Option`-valued (absent key = `none`);
  * the durable Red config store entry for the guild becomes the `store`
    field of `CogState`; `_set_single_soapbox_config` writes the cache and
    then persists the whole cached record, which is modelled by setting both
    fields;
  * discord entities become plain records: a channel carries its id, name,
    category id (`none` = uncategorized), its current number of occupants
    and whether it is a voice channel (discord.py keeps text channels in a
    category's `channels` list; `_check_delete_channels` filters them with
    `isinstance`);
  * discord.py compares channels by id (`__eq__` on snowflake ids), so the
    trigger comparison `after.channel == self._get_soapbox_channel(...)`
    is modelled as an id comparison;
  * every awaited provider call (channel create / delete / member move /
    permission check) can fail; the outcomes are supplied by the `Oracles`
    record of booleans, and the successful provider side effects performed
    by one event are collected in a `List Action`;
  * `logger.error` calls on the modelled paths become `Action.logError`
    with a tag; `logger.info` / `logger.debug` calls are not modelled.
-/

namespace Soapbox

/-- One guild channel as the cog sees it: id, display name, owning category
id (`none` when uncategorized), live occupant count, and whether it is a
voice channel. -/
structure Channel where
  id : Nat
  name : String
  category : Option Nat
  members : Nat
  isVoice : Bool
  deriving DecidableEq, Repr

/-- A guild: its channel list plus the set of existing category-channel ids
(used to resolve the configured category id, mirroring
`guild.get_channel(category_id)` returning `None` for a deleted category). -/
structure Guild where
  channels : List Channel
  categoryIds : List Nat
  deriving DecidableEq, Repr

/-- A guild member: snowflake id and display name. -/
structure Member where
  id : Nat
  display_name : String
  deriving DecidableEq, Repr

/-- The per-guild config dict `guild_config_cache[guild.id]`.  Each field is
one key of the JSON dict; `none` means the key is absent.  The source never
validates values, so `user_max_channels` is a raw (possibly non-positive)
integer exactly as `soapbox_set_max_channels` stored it. -/
structure GuildConfig where
  trigger_channel : Option Nat := none
  category : Option Nat := none
  user_max_channels : Option Int := none
  suffix : Option String := none
  deriving DecidableEq, Repr

/-- The cog state relevant to one guild: the in-memory cache entry and the
durable store record (`config.guild(guild).config`). -/
structure CogState where
  cache : Option GuildConfig
  store : Option GuildConfig
  deriving DecidableEq, Repr

/-- `Soapbox.DEFAULT_SOAPBOX_SUFFIX = "| \N{TIMER CLOCK}"`. -/
def DEFAULT_SOAPBOX_SUFFIX : String := "| ⏲"

/-- `Soapbox.DEFAULT_MAX_USER_SOAPBOXES = 2`. -/
def DEFAULT_MAX_USER_SOAPBOXES : Int := 2

/-- `Soapbox.HARD_MAX_USER_SOAPBOXES_CAP = 100`.  The constant is declared
in the source but is never read by any code path. -/
def HARD_MAX_USER_SOAPBOXES_CAP : Int := 100

/-- Python `str.endswith`, modelled over the character list: `p` is a
suffix of `s`. -/
def ends_with (s p : String) : Bool :=
  decide (p.data.length ≤ s.data.length) &&
    (s.data.drop (s.data.length - p.data.length) == p.data)

/-- Python `str.strip()` (restricted to the common ASCII whitespace
characters), modelled over the character list. -/
def pyWhitespace (c : Char) : Bool :=
  c == ' ' || c == '\t' || c == '\n' || c == '\r'

/-- Strip leading and trailing whitespace, as `suffix.strip()` does in
`soapbox_set_suffix`. -/
def str_strip (s : String) : String :=
  String.mk (((s.data.dropWhile pyWhitespace).reverse.dropWhile pyWhitespace).reverse)

/-- `_get_soapbox_suffix`: cached suffix, or the default when absent. -/
def get_soapbox_suffix (cache : Option GuildConfig) : String :=
  (cache.bind (fun c => c.suffix)).getD DEFAULT_SOAPBOX_SUFFIX

/-- `_get_max_user_channels`: cached per-user max, or the default 2. -/
def get_max_user_channels (cache : Option GuildConfig) : Int :=
  (cache.bind (fun c => c.user_max_channels)).getD DEFAULT_MAX_USER_SOAPBOXES

/-- `guild.get_channel(id)` over the channel list. -/
def findChannel (g : Guild) (i : Nat) : Option Channel :=
  g.channels.find? (fun c => c.id == i)

/-- `_get_soapbox_channel`: the configured trigger channel, resolved against
the live guild (none when unconfigured or the channel no longer exists). -/
def resolve_trigger (cache : Option GuildConfig) (g : Guild) : Option Channel :=
  (cache.bind (fun c => c.trigger_channel)).bind (fun i => findChannel g i)

/-- `_get_soapbox_category`: the configured category id, resolved against
the live guild (none when unconfigured or the category no longer exists). -/
def resolve_category (cache : Option GuildConfig) (g : Guild) : Option Nat :=
  (cache.bind (fun c => c.category)).bind
    (fun i => if g.categoryIds.contains i then some i else none)

/-- `_channel_is_empty`: re-query the channel by id from the live guild and
test for zero occupants.  `none` models the `AttributeError` the source
raises when `guild.get_channel` returns `None`. -/
def channel_is_empty (g : Guild) (ch : Channel) : Option Bool :=
  (findChannel g ch.id).map (fun live => live.members == 0)

/-- `_has_soapbox_suffix`: the channel name ends with the guild's current
suffix. -/
def has_soapbox_suffix (cache : Option GuildConfig) (ch : Channel) : Bool :=
  ends_with ch.name (get_soapbox_suffix cache)

/-- `_is_soapbox_channel`: the channel sits in the currently configured
(resolved) category and carries the current suffix.  discord.py object
equality on categories is id equality, with `None == None` true. -/
def is_soapbox_channel (cache : Option GuildConfig) (g : Guild) (ch : Channel) : Bool :=
  (ch.category == resolve_category cache g) && has_soapbox_suffix cache ch

/-- The voice channels of the guild (`guild.voice_channels`). -/
def voice_channels (g : Guild) : List Channel :=
  g.channels.filter (fun c => c.isVoice)

/-- `f"{member.display_name} #{i} {suffix}"`. -/
def soapbox_name (display : String) (i : Nat) (sfx : String) : String :=
  display ++ " #" ++ toString i ++ " " ++ sfx

/-- `discord.utils.get(member.guild.voice_channels, name=...)` as a
boolean existence test. -/
def channel_exists (g : Guild) (n : String) : Bool :=
  (voice_channels g).any (fun c => c.name == n)

/-- The scan loop of `_get_soapbox_channel_name`: try candidate indices
starting at `i`, with `fuel` candidates left (the Python loop runs
`i in range(1, max_channel + 1)`). -/
def allocFrom (g : Guild) (display sfx : String) : Nat → Nat → Option String
  | _, 0 => none
  | i, fuel + 1 =>
    let n := soapbox_name display i sfx
    if channel_exists g n then allocFrom g display sfx (i + 1) fuel else some n

/-- Tags for the `logger.error` calls reached by the modelled paths. -/
inductive LogTag where
  /-- line 342: the Soapbox category has not been configured. -/
  | categoryNotConfigured
  /-- line 346: the bot may not manage the target category (trigger entry). -/
  | cannotManageCreate
  /-- line 253: Discord error while creating the Soapbox voice channel. -/
  | createFailed
  /-- line 316: `logger.error(result.error)` after the eviction fallback
  (emitted unconditionally, even when the fallback reported success). -/
  | fallback
  /-- line 354: the bot may not manage the category of the empty channel. -/
  | cannotManageDelete
  /-- line 368: Discord error while deleting the empty Soapbox channel. -/
  | deleteFailed
  deriving DecidableEq, Repr

/-- Successful provider side effects and user-visible messages performed by
one handler or command run, in execution order. -/
inductive Action where
  /-- `guild.create_voice_channel(name, category)`: category `none` means
  the channel is created uncategorized (the kick channel). -/
  | createChannel (name : String) (category : Option Nat)
  /-- `member.move_to(channel)`, target identified by its name. -/
  | moveMember (memberId : Nat) (channelName : String)
  /-- `before.channel.delete()` in the idle sweep, by channel id. -/
  | deleteChannel (channelId : Nat)
  /-- `kick_channel.delete()` in the eviction fallback, by channel name
  (the kick channel never appears in the modelled guild snapshot). -/
  | deleteKick (channelName : String)
  /-- `member.send(msg)`. -/
  | notifyMember (memberId : Nat) (msg : String)
  /-- `logger.error(...)` on a modelled path. -/
  | logError (tag : LogTag)
  /-- A `SoapboxErrorReply` sent to the invoking context. -/
  | errorReply
  /-- A `SoapboxSuccessReply` sent to the invoking context. -/
  | successReply
  /-- A `SoapboxEmbedReply` sent to the invoking context. -/
  | embedReply
  deriving DecidableEq, Repr

/-- Outcomes of the awaited provider calls and permission checks reached by
one event: each boolean says whether the corresponding call succeeds. -/
structure Oracles where
  /-- `bot_can_manage_category` on the target category (trigger entry). -/
  perm_create : Bool
  /-- `bot_can_manage_category` on the empty channel's category (idle sweep). -/
  perm_delete : Bool
  /-- `guild.create_voice_channel` for the Soapbox channel. -/
  create_ok : Bool
  /-- `member.move_to` into the new Soapbox channel. -/
  move_ok : Bool
  /-- `guild.create_voice_channel` for the kick channel. -/
  kick_create_ok : Bool
  /-- `member.move_to` into the kick channel. -/
  kick_move_ok : Bool
  /-- `kick_channel.delete()`. -/
  kick_delete_ok : Bool
  /-- `before.channel.delete()` in the idle sweep. -/
  delete_ok : Bool
  deriving DecidableEq, Repr

/-- The `seplib` `Result` as used by the cog: success flag, error message,
and (for `_create_soapbox_channel`) the created channel's name as value. -/
structure SbResult where
  success : Bool
  error : Option String
  value : Option String
  deriving DecidableEq, Repr

/-- The quota notice `member.send` text (source: "You're only allowed to
have {max_channel} voice channels.", rendered here without the
apostrophe). -/
def quota_message (mx : Int) : String :=
  "You are only allowed to have " ++ toString mx ++ " voice channels."

/-- `_get_soapbox_channel_name`: scan slots 1..max for the first free
candidate name; on exhaustion DM the member and return no name.  The pair's
second component records the DM side effect. -/
def get_soapbox_channel_name (cache : Option GuildConfig) (g : Guild) (m : Member) :
    Option String × List Action :=
  let mx := get_max_user_channels cache
  let sfx := get_soapbox_suffix cache
  match allocFrom g m.display_name sfx 1 mx.toNat with
  | some n => (some n, [])
  | none => (none, [Action.notifyMember m.id (quota_message mx)])

/-- `_move_member_to_channel`: the move either succeeds or its
`HTTPException` is caught and turned into a failure `Result`; nothing is
logged here. -/
def move_member_to_channel (m : Member) (channelName : String) (ok : Bool) :
    SbResult × List Action :=
  if ok then
    (⟨true, none, none⟩, [Action.moveMember m.id channelName])
  else
    (⟨false, some "Error from Discord when attempting to move user to Soapbox Channel.", none⟩, [])

/-- `_move_member_and_delete` (the eviction fallback): create the kick
channel (an exception aborts with a failure result), move the member into it
(the returned `Result` is discarded), delete the kick channel (an exception
aborts with a failure result), and report success. -/
def move_member_and_delete (m : Member) (o : Oracles) : SbResult × List Action :=
  if o.kick_create_ok then
    let kick := "_DEL_" ++ m.display_name
    let mv := move_member_to_channel m kick o.kick_move_ok
    if o.kick_delete_ok then
      (⟨true, none, none⟩,
        Action.createChannel kick none :: mv.2 ++ [Action.deleteKick kick])
    else
      (⟨false, some "Discord returned an error while attempting to create/delete Kick channel.", none⟩,
        Action.createChannel kick none :: mv.2)
  else
    (⟨false, some "Discord returned an error while attempting to create/delete Kick channel.", none⟩, [])

/-- `_create_soapbox_channel`: allocate a name (a quota hit yields a failure
result and no create call), then create the channel in the target category;
a Discord error is logged and yields a failure result. -/
def create_soapbox_channel (cache : Option GuildConfig) (g : Guild) (m : Member)
    (cid : Nat) (o : Oracles) : SbResult × List Action :=
  let alloc := get_soapbox_channel_name cache g m
  match alloc.1 with
  | none =>
    (⟨false, some "Member is not allowed to create more Soapbox channels", none⟩, alloc.2)
  | some n =>
    if o.create_ok then
      (⟨true, none, some n⟩, alloc.2 ++ [Action.createChannel n (some cid)])
    else
      (⟨false, some "Discord returned an error while creating a voice channel.", none⟩,
        alloc.2 ++ [Action.logError LogTag.createFailed])

/-- `_create_channel_and_move`: create the Soapbox channel; on any failure
run the eviction fallback and log its `result.error`; on success move the
member into the new channel. -/
def create_channel_and_move (cache : Option GuildConfig) (g : Guild) (m : Member)
    (cid : Nat) (o : Oracles) : SbResult × List Action :=
  let r := create_soapbox_channel cache g m cid o
  if r.1.success then
    let mv := move_member_to_channel m (r.1.value.getD "") o.move_ok
    (mv.1, r.2 ++ mv.2)
  else
    let fb := move_member_and_delete m o
    (fb.1, r.2 ++ fb.2 ++ [Action.logError LogTag.fallback])

/-- `after.channel is not None and after.channel == self._get_soapbox_channel(...)`:
discord.py compares channels by id. -/
def after_is_trigger (cache : Option GuildConfig) (g : Guild) (after : Option Channel) : Bool :=
  match after, resolve_trigger cache g with
  | some a, some t => a.id == t.id
  | _, _ => false

/-- The trigger-entry body (rule A): resolve the category (log and stop when
unconfigured), check the manage permission (log and stop when denied), then
create-and-move. -/
def handle_trigger_entry (cache : Option GuildConfig) (g : Guild) (m : Member)
    (o : Oracles) : List Action :=
  match resolve_category cache g with
  | none => [Action.logError LogTag.categoryNotConfigured]
  | some cid =>
    if o.perm_create then (create_channel_and_move cache g m cid o).2
    else [Action.logError LogTag.cannotManageCreate]

/-- The exit body (rule B): when the before-channel is a Soapbox channel and
is empty on a live re-query, check the manage permission (log and stop when
denied) and delete it (a Discord error is logged).  When the channel's
category is `None` the source's `bot_can_manage_category(None)` raises
`AttributeError` and the handler aborts with no effect. -/
def handle_exit (cache : Option GuildConfig) (g : Guild) (before : Option Channel)
    (o : Oracles) : List Action :=
  match before with
  | none => []
  | some b =>
    if is_soapbox_channel cache g b && (channel_is_empty g b == some true) then
      match b.category with
      | none => []
      | some _ =>
        if o.perm_delete then
          if o.delete_ok then [Action.deleteChannel b.id]
          else [Action.logError LogTag.deleteFailed]
        else [Action.logError LogTag.cannotManageDelete]
    else []

/-- `on_voice_state_update`: no-op when the channel did not change;
otherwise run the trigger-entry rule (which returns) when the after-channel
is the trigger, else the exit rule.  The handler never writes the config
cache or the store, so the state is passed through. -/
def on_voice_state_update (st : CogState) (g : Guild) (m : Member)
    (before after : Option Channel) (o : Oracles) : CogState × List Action :=
  if before = after then (st, [])
  else if after_is_trigger st.cache g after then
    (st, handle_trigger_entry st.cache g m o)
  else
    (st, handle_exit st.cache g before o)

/-- The assignments `guild_cache[key] = value` reachable from the four
single-field `set` commands, as a typed update (the source's dict takes any
JSON value; only these four key/value shapes are ever written). -/
inductive CfgUpdate where
  | setTrigger (id : Nat)
  | setCategory (id : Nat)
  | setMax (v : Int)
  | setSuffix (s : String)
  deriving DecidableEq, Repr

/-- Apply one `guild_cache[key] = value` assignment to the config record. -/
def applyUpdate (c : GuildConfig) : CfgUpdate → GuildConfig
  | CfgUpdate.setTrigger i => { c with trigger_channel := some i }
  | CfgUpdate.setCategory i => { c with category := some i }
  | CfgUpdate.setMax v => { c with user_max_channels := some v }
  | CfgUpdate.setSuffix s => { c with suffix := some s }

/-- `_set_single_soapbox_config`: read the cached dict (an empty dict when
absent), assign the key, store the dict back in the cache, and persist the
whole cache entry to the durable store. -/
def set_single_soapbox_config (st : CogState) (u : CfgUpdate) : CogState :=
  let c := applyUpdate (st.cache.getD {}) u
  ⟨some c, some c⟩

/-- `_base_command_set`: a failed prior validation result sends an error
reply and performs no update; otherwise the single config value is set and a
success reply is sent.  `validation` is `none` when the command passed
`result=None`. -/
def base_command_set (st : CogState) (validation : Option Bool) (u : CfgUpdate) :
    CogState × List Action :=
  match validation with
  | some false => (st, [Action.errorReply])
  | _ => (set_single_soapbox_config st u, [Action.successReply])

/-- `soapbox_set_suffix`: strip the argument and store it (no validation
result). -/
def soapbox_set_suffix (st : CogState) (s : String) : CogState × List Action :=
  base_command_set st none (CfgUpdate.setSuffix (str_strip s))

/-- `soapbox_set_max_channels`.  The source sends an error reply when
`max_channels <= 0` but has no early return there, so it always falls
through to `_base_command_set` (with `result=None`) and stores the value;
no path compares the value against `HARD_MAX_USER_SOAPBOXES_CAP`. -/
def soapbox_set_max_channels (st : CogState) (v : Int) : CogState × List Action :=
  let pre : List Action := if v ≤ 0 then [Action.errorReply] else []
  let r := base_command_set st none (CfgUpdate.setMax v)
  (r.1, pre ++ r.2)

/-- `soapbox_set_channel`: validate `bot_can_move_members` (outcome given by
`perm`), then set the trigger channel id. -/
def soapbox_set_channel (st : CogState) (id : Nat) (perm : Bool) : CogState × List Action :=
  base_command_set st (some perm) (CfgUpdate.setTrigger id)

/-- `soapbox_set_category`: validate `bot_can_manage_category` (outcome
given by `perm`), then set the category id. -/
def soapbox_set_category (st : CogState) (id : Nat) (perm : Bool) : CogState × List Action :=
  base_command_set st (some perm) (CfgUpdate.setCategory id)

/-- `_check_delete_channels`: with no category and no guild raise
`ValueError` (`none`); with no category take the guild's voice channels;
with a category take its channels restricted to voice channels; in both
cases keep those carrying the current suffix.  `guildGiven` records whether
the `guild` argument was passed (the source only needs it when `category`
is `None`). -/
def check_delete_channels (cache : Option GuildConfig) (g : Guild)
    (category : Option Nat) (guildGiven : Bool) : Option (List Channel) :=
  match category with
  | none =>
    if guildGiven then
      some ((voice_channels g).filter (fun vc => has_soapbox_suffix cache vc))
    else none
  | some cid =>
    some (((g.channels.filter (fun c => c.category == some cid)).filter
      (fun c => c.isVoice)).filter (fun vc => has_soapbox_suffix cache vc))

/-- `soapbox_check`: list the at-risk channels for the whole guild and reply
with an embed (non-empty list) or an error-styled notice (empty list); the
command reads the cache and mutates nothing. -/
def soapbox_check (st : CogState) (g : Guild) : CogState × List Action :=
  match check_delete_channels st.cache g none true with
  | some dels => if dels.isEmpty then (st, [Action.errorReply]) else (st, [Action.embedReply])
  | none => (st, [])

/-
Concurrency model for the trigger-entry race.  `on_voice_state_update` is an
asyncio event handler with no lock of any kind; within rule A the name
allocation scan runs synchronously and the channel creation is an awaited
provider call, so a second event for the same guild can run its own scan
while the first event's creation is in flight.  The race model below runs
two trigger-entry bodies (both provider calls succeeding) as two tasks with
exactly that suspension point: step one performs the source's allocation
scan (`allocFrom`) against the current guild channel list; step two commits
the created channel.  A schedule is the interleaving order; the source
serializes nothing, so every schedule is possible.
-/

/-- A guild whose voice channels carry the given names (ids and occupancy
are irrelevant to the allocation scan). -/
def raceGuild (names : List String) : Guild :=
  ⟨names.map (fun n => ⟨0, n, none, 1, true⟩), []⟩

/-- The allocation scan of `_get_soapbox_channel_name` against the current
channel-name list. -/
def allocName (names : List String) (display sfx : String) (mx : Int) : Option String :=
  allocFrom (raceGuild names) display sfx 1 mx.toNat

/-- Two concurrent trigger-entry tasks: the channel names existing so far,
and per task the allocated name (once step one ran) and whether the creation
committed. -/
structure RaceState where
  names : List String
  alloc1 : Option String
  done1 : Bool
  alloc2 : Option String
  done2 : Bool
  deriving DecidableEq, Repr

/-- Run task one's next step: allocate if it has not yet allocated,
otherwise commit its creation. -/
def raceStepA (display sfx : String) (mx : Int) (s : RaceState) : RaceState :=
  match s.alloc1 with
  | none => { s with alloc1 := allocName s.names display sfx mx }
  | some n => if s.done1 then s else { s with names := s.names ++ [n], done1 := true }

/-- Run task two's next step. -/
def raceStepB (display sfx : String) (mx : Int) (s : RaceState) : RaceState :=
  match s.alloc2 with
  | none => { s with alloc2 := allocName s.names display sfx mx }
  | some n => if s.done2 then s else { s with names := s.names ++ [n], done2 := true }

/-- Run a schedule (`true` = task one moves, `false` = task two moves). -/
def runRace (display sfx : String) (mx : Int) (sched : List Bool) (s : RaceState) : RaceState :=
  sched.foldl (fun st t => if t then raceStepA display sfx mx st else raceStepB display sfx mx st) s

/-- Both tasks pending, no channels yet. -/
def initRace : RaceState := ⟨[], none, false, none, false⟩

/-! ### Helper lemmas -/

/-- When the scan loop returns a name, it is the candidate of the first
index (at or after the start index, within the fuel window) whose name is
free; every earlier index in the window is taken. -/
lemma allocFrom_eq_some (g : Guild) (d sfx : String) :
    ∀ fuel i n, allocFrom g d sfx i fuel = some n →
      ∃ k, i ≤ k ∧ k < i + fuel ∧ n = soapbox_name d k sfx ∧
        channel_exists g (soapbox_name d k sfx) = false ∧
        ∀ j, i ≤ j → j < k → channel_exists g (soapbox_name d j sfx) = true := by
  intro fuel
  induction fuel with
  | zero => intro i n h; simp [allocFrom] at h
  | succ fuel ih =>
    intro i n h
    rw [allocFrom] at h
    by_cases hc : channel_exists g (soapbox_name d i sfx) = true
    · simp only [hc, if_true] at h
      obtain ⟨k, hik, hlt, hn, hfree, hall⟩ := ih (i + 1) n h
      refine ⟨k, by omega, by omega, hn, hfree, ?_⟩
      intro j hij hjk
      rcases Nat.eq_or_lt_of_le hij with hji | hji
      · exact hji ▸ hc
      · exact hall j hji hjk
    · simp only [Bool.not_eq_true] at hc
      simp only [hc, Bool.false_eq_true, if_false, Option.some.injEq] at h
      exact ⟨i, le_refl i, by omega, h.symm, h ▸ hc, by omega⟩

/-- The scan loop returns nothing exactly when every candidate in the fuel
window is taken. -/
lemma allocFrom_eq_none (g : Guild) (d sfx : String) :
    ∀ fuel i, allocFrom g d sfx i fuel = none ↔
      ∀ k, i ≤ k → k < i + fuel → channel_exists g (soapbox_name d k sfx) = true := by
  intro fuel
  induction fuel with
  | zero => intro i; simp [allocFrom]; omega
  | succ fuel ih =>
    intro i
    rw [allocFrom]
    by_cases hc : channel_exists g (soapbox_name d i sfx) = true
    · simp only [hc, if_true, ih (i + 1)]
      constructor
      · intro hall k hik hk
        rcases Nat.eq_or_lt_of_le hik with hki | hki
        · exact hki ▸ hc
        · exact hall k hki (by omega)
      · intro hall k hik hk
        exact hall k (by omega) (by omega)
    · simp only [Bool.not_eq_true] at hc
      simp only [hc, if_false]
      constructor
      · intro h; exact absurd h (by simp)
      · intro hall
        exact absurd (hall i (le_refl i) (by omega)) (by simp [hc])

/-- The first component of `_get_soapbox_channel_name` is the scan loop
started at slot 1 with `maxPerUser` candidates. -/
lemma get_soapbox_channel_name_fst (cache : Option GuildConfig) (g : Guild) (m : Member) :
    (get_soapbox_channel_name cache g m).1 =
      allocFrom g m.display_name (get_soapbox_suffix cache) 1 (get_max_user_channels cache).toNat := by
  cases h : allocFrom g m.display_name (get_soapbox_suffix cache) 1 (get_max_user_channels cache).toNat <;>
    simp [get_soapbox_channel_name, h]

/-- On quota exhaustion `_get_soapbox_channel_name` yields no name and
exactly one direct member notification. -/
lemma get_soapbox_channel_name_quota (cache : Option GuildConfig) (g : Guild) (m : Member)
    (h : (get_soapbox_channel_name cache g m).1 = none) :
    get_soapbox_channel_name cache g m =
      (none, [Action.notifyMember m.id (quota_message (get_max_user_channels cache))]) := by
  cases hh : allocFrom g m.display_name (get_soapbox_suffix cache) 1 (get_max_user_channels cache).toNat
  · simp [get_soapbox_channel_name, hh]
  · rw [get_soapbox_channel_name_fst, hh] at h; exact absurd h (by simp)

/-- The handler never writes the config cache or the store. -/
lemma on_voice_state_update_fst (st : CogState) (g : Guild) (m : Member)
    (before after : Option Channel) (o : Oracles) :
    (on_voice_state_update st g m before after o).1 = st := by
  rw [on_voice_state_update]
  split
  · rfl
  · split <;> rfl

/-- The move helper never deletes a channel. -/
lemma no_deleteChannel_in_move (m : Member) (n : String) (ok : Bool) (i : Nat) :
    Action.deleteChannel i ∉ (move_member_to_channel m n ok).2 := by
  cases ok <;> simp [move_member_to_channel]

/-- The eviction fallback never performs an idle-sweep channel delete (its
own delete is the kick-channel delete). -/
lemma no_deleteChannel_in_fallback (m : Member) (o : Oracles) (i : Nat) :
    Action.deleteChannel i ∉ (move_member_and_delete m o).2 := by
  obtain ⟨pc, pd, co, mo, kc, km, kd, dok⟩ := o
  cases kc <;> cases km <;> cases kd <;>
    simp [move_member_and_delete, move_member_to_channel]

/-- The eviction fallback never creates a channel inside a category (the
kick channel is uncategorized). -/
lemma no_cat_create_in_fallback (m : Member) (o : Oracles) (n : String) (c : Nat) :
    Action.createChannel n (some c) ∉ (move_member_and_delete m o).2 := by
  obtain ⟨pc, pd, co, mo, kc, km, kd, dok⟩ := o
  cases kc <;> cases km <;> cases kd <;>
    simp [move_member_and_delete, move_member_to_channel]

/-- When the kick-channel creation succeeds, the eviction fallback creates
the uncategorized kick channel named from the member's display name. -/
lemma kick_create_mem_fallback (m : Member) (o : Oracles) (h : o.kick_create_ok = true) :
    Action.createChannel ("_DEL_" ++ m.display_name) none ∈ (move_member_and_delete m o).2 := by
  cases hkd : o.kick_delete_ok <;> simp [move_member_and_delete, h, hkd]

/-- The second component of `_get_soapbox_channel_name` is empty or the
single quota notification. -/
lemma gscn_snd_cases (cache : Option GuildConfig) (g : Guild) (m : Member) :
    (get_soapbox_channel_name cache g m).2 = [] ∨
    (get_soapbox_channel_name cache g m).2 =
      [Action.notifyMember m.id (quota_message (get_max_user_channels cache))] := by
  cases h : allocFrom g m.display_name (get_soapbox_suffix cache) 1 (get_max_user_channels cache).toNat <;>
    simp [get_soapbox_channel_name, h]

/-- `_create_soapbox_channel` never deletes a channel. -/
lemma no_deleteChannel_in_create (cache : Option GuildConfig) (g : Guild) (m : Member)
    (cid : Nat) (o : Oracles) (i : Nat) :
    Action.deleteChannel i ∉ (create_soapbox_channel cache g m cid o).2 := by
  rcases gscn_snd_cases cache g m with h | h <;>
    cases h1 : (get_soapbox_channel_name cache g m).1 <;>
      cases hc : o.create_ok <;>
        simp [create_soapbox_channel, h, h1, hc]

/-- `_create_channel_and_move` never performs an idle-sweep delete. -/
lemma no_deleteChannel_in_ccam (cache : Option GuildConfig) (g : Guild) (m : Member)
    (cid : Nat) (o : Oracles) (i : Nat) :
    Action.deleteChannel i ∉ (create_channel_and_move cache g m cid o).2 := by
  simp only [create_channel_and_move]
  by_cases hs : (create_soapbox_channel cache g m cid o).1.success = true
  · simp [hs, no_deleteChannel_in_create cache g m cid o i,
      no_deleteChannel_in_move m ((create_soapbox_channel cache g m cid o).1.value.getD "") o.move_ok i]
  · simp [hs, no_deleteChannel_in_create cache g m cid o i,
      no_deleteChannel_in_fallback m o i]

/-- The trigger-entry rule never performs an idle-sweep delete. -/
lemma no_deleteChannel_in_trigger_entry (cache : Option GuildConfig) (g : Guild)
    (m : Member) (o : Oracles) (i : Nat) :
    Action.deleteChannel i ∉ handle_trigger_entry cache g m o := by
  simp only [handle_trigger_entry]
  cases h : resolve_category cache g
  · simp
  · cases hp : o.perm_create <;> simp [no_deleteChannel_in_ccam]

/-! ### Claim theorems -/

/-- C4: for every member and guild config with `maxPerUser = m`, name
allocation scans `i = 1..m` in increasing order, forming the candidate name
`"{displayName} #{i} {suffix}"`, and returns the name for the smallest `i`
for which no voice channel with that exact name exists anywhere in the
guild; if all `m` candidate names are taken it returns the quota-exceeded
outcome (`none`) instead of a name. -/
theorem name_allocation_first_free_slot (cache : Option GuildConfig) (g : Guild) (m : Member) :
    (∀ n, (get_soapbox_channel_name cache g m).1 = some n →
      ∃ k : Nat, 1 ≤ k ∧ (k : Int) ≤ get_max_user_channels cache ∧
        n = soapbox_name m.display_name k (get_soapbox_suffix cache) ∧
        channel_exists g n = false ∧
        ∀ j : Nat, 1 ≤ j → j < k →
          channel_exists g (soapbox_name m.display_name j (get_soapbox_suffix cache)) = true) ∧
    ((get_soapbox_channel_name cache g m).1 = none ↔
      ∀ k : Nat, 1 ≤ k → (k : Int) ≤ get_max_user_channels cache →
        channel_exists g (soapbox_name m.display_name k (get_soapbox_suffix cache)) = true) := by
  rw [get_soapbox_channel_name_fst]
  constructor
  · intro n h
    obtain ⟨k, h1, h2, hn, hfree, hall⟩ := allocFrom_eq_some g _ _ _ _ _ h
    exact ⟨k, h1, by omega, hn, hn ▸ hfree, fun j hj hjk => hall j hj hjk⟩
  · rw [allocFrom_eq_none]
    constructor
    · intro hall k h1 h2; exact hall k h1 (by omega)
    · intro hall k h1 h2; exact hall k h1 (by omega)

/-- Witness for C4 at a concrete guild: with `maxPerUser = 2`, suffix
`"| ⏲"` and `"Ann #1 | ⏲"` already existing, the allocator returns slot 2:
the returned name is a free candidate and slot 1 is taken. -/
theorem name_allocation_first_free_slot_witness :
    ∃ k : Nat, 1 ≤ k ∧
      (k : Int) ≤ get_max_user_channels (some ⟨some 1, some 10, some 2, some "| ⏲"⟩) ∧
      "Ann #2 | ⏲" = soapbox_name "Ann" k (get_soapbox_suffix (some ⟨some 1, some 10, some 2, some "| ⏲"⟩)) ∧
      channel_exists ⟨[⟨2, "Ann #1 | ⏲", some 10, 1, true⟩], [10]⟩ "Ann #2 | ⏲" = false ∧
      ∀ j : Nat, 1 ≤ j → j < k →
        channel_exists ⟨[⟨2, "Ann #1 | ⏲", some 10, 1, true⟩], [10]⟩
          (soapbox_name "Ann" j (get_soapbox_suffix (some ⟨some 1, some 10, some 2, some "| ⏲"⟩))) = true :=
  (name_allocation_first_free_slot (some ⟨some 1, some 10, some 2, some "| ⏲"⟩)
    ⟨[⟨2, "Ann #1 | ⏲", some 10, 1, true⟩], [10]⟩ ⟨5, "Ann"⟩).1 "Ann #2 | ⏲" (by decide)

/-- C10: for every occupancy event in which the before-channel equals the
after-channel, the event handler returns immediately as a no-op: no actions
are performed (no create, move, delete or notification) and the config
cache and store are passed through unchanged. -/
theorem self_transition_noop (st : CogState) (g : Guild) (m : Member)
    (ch : Option Channel) (o : Oracles) :
    on_voice_state_update st g m ch ch o = (st, []) := by
  simp [on_voice_state_update]

/-- C2 (code bug): `soapbox_set_max_channels` is meant to reject
non-positive values ("The number of channels must be greater than 0.") and
the class declares a hard cap of 100, but the `max_channels <= 0` branch
sends the error reply without returning, so the command falls through and
stores the rejected value; no path reads `HARD_MAX_USER_SOAPBOXES_CAP`.
Evaluated at the failing inputs: `0` is stored (and persisted) right after
the error reply, and `101` is stored with no complaint. -/
theorem set_max_channels_stores_nonpositive :
    (soapbox_set_max_channels ⟨none, none⟩ 0).1.cache = some { user_max_channels := some 0 } ∧
    (soapbox_set_max_channels ⟨none, none⟩ 0).1.store = some { user_max_channels := some 0 } ∧
    (soapbox_set_max_channels ⟨none, none⟩ 0).2 = [Action.errorReply, Action.successReply] ∧
    (soapbox_set_max_channels ⟨none, none⟩ 101).1.cache = some { user_max_channels := some 101 } ∧
    (soapbox_set_max_channels ⟨none, none⟩ 101).2 = [Action.successReply] ∧
    HARD_MAX_USER_SOAPBOXES_CAP < 101 := by
  decide

/-- C3 counterexample: in the eviction fallback, a failure at the move step
(kick channel created, member move fails, kick channel deleted) yields a
success result for the protocol as a whole, with no move performed and no
error logged — refuting that a failure at any of the three steps yields a
failure result. -/
theorem eviction_move_failure_reports_success :
    (move_member_and_delete ⟨5, "Ann"⟩ ⟨true, true, true, true, true, false, true, true⟩).1.success = true ∧
    (move_member_and_delete ⟨5, "Ann"⟩ ⟨true, true, true, true, true, false, true, true⟩).2 =
      [Action.createChannel "_DEL_Ann" none, Action.deleteKick "_DEL_Ann"] := by
  decide

/-- C3 (amended): the eviction fallback runs its three steps in the fixed
order create-kick-resource (uncategorized, named `"_DEL_" ++ displayName`),
move member, delete kick resource, and never retries a step; a failure at
the create or delete step aborts with a failure result, but a failure at
the move step is caught inside the move helper and discarded — the protocol
then proceeds to delete the kick channel and reports success.  The overall
result is success exactly when the create and delete calls succeed. -/
theorem eviction_fallback_result_characterization (m : Member) (o : Oracles) :
    (move_member_and_delete m o).1.success = (o.kick_create_ok && o.kick_delete_ok) ∧
    (move_member_and_delete m o).2 =
      (if o.kick_create_ok then
        Action.createChannel ("_DEL_" ++ m.display_name) none ::
          ((if o.kick_move_ok then [Action.moveMember m.id ("_DEL_" ++ m.display_name)] else []) ++
           (if o.kick_delete_ok then [Action.deleteKick ("_DEL_" ++ m.display_name)] else []))
       else []) := by
  obtain ⟨pc, pd, co, mo, kc, km, kd, dok⟩ := o
  cases kc <;> cases km <;> cases kd <;>
    simp [move_member_and_delete, move_member_to_channel]

/-- C6 counterexample: a channel created under the old suffix `"| clock"`
(empty, in the configured category) still satisfies the managed predicate
after the suffix is changed to `"clock"`, because its name also ends with
the new suffix — refuting that a suffix change always de-manages channels
created under the old suffix. -/
theorem old_suffix_channel_still_managed_after_suffix_change :
    is_soapbox_channel
      ((soapbox_set_suffix ⟨some ⟨some 1, some 10, some 2, some "| clock"⟩, none⟩ "clock").1).cache
      ⟨[⟨2, "Ann #1 | clock", some 10, 0, true⟩], [10]⟩
      ⟨2, "Ann #1 | clock", some 10, 0, true⟩ = true ∧
    ends_with "Ann #1 | clock" "| clock" = true := by
  decide

/-- C6 (amended): managed-resource membership is a pure function of the
current cached config at check time — a channel is managed iff its category
equals the currently resolved target category and its name ends with the
currently cached suffix; consequently, after the suffix is changed via the
`set suffix` command, a channel created under the old suffix no longer
satisfies the managed predicate provided its name does not end with the new
(stripped) suffix. -/
theorem managed_membership_current_config :
    (∀ cache g ch, is_soapbox_channel cache g ch =
       ((ch.category == resolve_category cache g) &&
         ends_with ch.name (get_soapbox_suffix cache))) ∧
    (∀ st s g ch, ends_with ch.name (str_strip s) = false →
       is_soapbox_channel ((soapbox_set_suffix st s).1).cache g ch = false) := by
  constructor
  · intro cache g ch; rfl
  · intro st s g ch h
    simp [soapbox_set_suffix, base_command_set, set_single_soapbox_config, applyUpdate,
      is_soapbox_channel, has_soapbox_suffix, get_soapbox_suffix, h]

/-- Witness for C6 at a concrete input: after `set suffix "zz"`, the old
channel `"Ann #1 | clock"` is no longer managed. -/
theorem managed_membership_current_config_witness :
    is_soapbox_channel
      ((soapbox_set_suffix ⟨some ⟨some 1, some 10, some 2, some "| clock"⟩, none⟩ "zz").1).cache
      ⟨[⟨2, "Ann #1 | clock", some 10, 0, true⟩], [10]⟩
      ⟨2, "Ann #1 | clock", some 10, 0, true⟩ = false :=
  managed_membership_current_config.2
    ⟨some ⟨some 1, some 10, some 2, some "| clock"⟩, none⟩ "zz"
    ⟨[⟨2, "Ann #1 | clock", some 10, 0, true⟩], [10]⟩
    ⟨2, "Ann #1 | clock", some 10, 0, true⟩ (by decide)

/-- C7: every single-field config update (`set suffix`, `set max_channels`,
`set channel`, `set category`) changes only the named field in the cached
config record, leaves every other field's cached value unchanged, and
persists the entire resulting record to the store; a rejected validation
(`set channel` / `set category` with the permission check failing) changes
nothing; reading a field that has never been set returns its documented
default (the `"| ⏲"` constant for the suffix, 2 for the per-user max). -/
theorem single_field_update_frame :
    (∀ c i, (applyUpdate c (CfgUpdate.setTrigger i)).trigger_channel = some i ∧
       (applyUpdate c (CfgUpdate.setTrigger i)).category = c.category ∧
       (applyUpdate c (CfgUpdate.setTrigger i)).user_max_channels = c.user_max_channels ∧
       (applyUpdate c (CfgUpdate.setTrigger i)).suffix = c.suffix) ∧
    (∀ c i, (applyUpdate c (CfgUpdate.setCategory i)).category = some i ∧
       (applyUpdate c (CfgUpdate.setCategory i)).trigger_channel = c.trigger_channel ∧
       (applyUpdate c (CfgUpdate.setCategory i)).user_max_channels = c.user_max_channels ∧
       (applyUpdate c (CfgUpdate.setCategory i)).suffix = c.suffix) ∧
    (∀ c v, (applyUpdate c (CfgUpdate.setMax v)).user_max_channels = some v ∧
       (applyUpdate c (CfgUpdate.setMax v)).trigger_channel = c.trigger_channel ∧
       (applyUpdate c (CfgUpdate.setMax v)).category = c.category ∧
       (applyUpdate c (CfgUpdate.setMax v)).suffix = c.suffix) ∧
    (∀ c s, (applyUpdate c (CfgUpdate.setSuffix s)).suffix = some s ∧
       (applyUpdate c (CfgUpdate.setSuffix s)).trigger_channel = c.trigger_channel ∧
       (applyUpdate c (CfgUpdate.setSuffix s)).category = c.category ∧
       (applyUpdate c (CfgUpdate.setSuffix s)).user_max_channels = c.user_max_channels) ∧
    (∀ st u, (set_single_soapbox_config st u).cache = some (applyUpdate (st.cache.getD {}) u) ∧
       (set_single_soapbox_config st u).store = (set_single_soapbox_config st u).cache) ∧
    (∀ st s, (soapbox_set_suffix st s).1 =
       set_single_soapbox_config st (CfgUpdate.setSuffix (str_strip s))) ∧
    (∀ st v, (soapbox_set_max_channels st v).1 =
       set_single_soapbox_config st (CfgUpdate.setMax v)) ∧
    (∀ st i, (soapbox_set_channel st i true).1 =
       set_single_soapbox_config st (CfgUpdate.setTrigger i) ∧
       (soapbox_set_channel st i false).1 = st) ∧
    (∀ st i, (soapbox_set_category st i true).1 =
       set_single_soapbox_config st (CfgUpdate.setCategory i) ∧
       (soapbox_set_category st i false).1 = st) ∧
    (∀ c, c.suffix = none → get_soapbox_suffix (some c) = DEFAULT_SOAPBOX_SUFFIX) ∧
    (∀ c, c.user_max_channels = none →
       get_max_user_channels (some c) = DEFAULT_MAX_USER_SOAPBOXES) ∧
    get_soapbox_suffix none = DEFAULT_SOAPBOX_SUFFIX ∧
    get_max_user_channels none = DEFAULT_MAX_USER_SOAPBOXES := by
  refine ⟨fun c i => by simp [applyUpdate], fun c i => by simp [applyUpdate],
    fun c v => by simp [applyUpdate], fun c s => by simp [applyUpdate],
    fun st u => by simp [set_single_soapbox_config],
    fun st s => by simp [soapbox_set_suffix, base_command_set],
    fun st v => by simp [soapbox_set_max_channels, base_command_set],
    fun st i => by simp [soapbox_set_channel, base_command_set],
    fun st i => by simp [soapbox_set_category, base_command_set],
    fun c h => by simp [get_soapbox_suffix, h],
    fun c h => by simp [get_max_user_channels, h], rfl, rfl⟩

/-- Witness for C7 at a concrete input: after setting only the suffix on an
unconfigured guild, the stored record holds the stripped suffix, the other
fields are still absent, the store mirrors the cache, and the unset
per-user max reads back as the default 2. -/
theorem single_field_update_frame_witness :
    (soapbox_set_suffix ⟨none, none⟩ " vc ").1 =
      set_single_soapbox_config ⟨none, none⟩ (CfgUpdate.setSuffix (str_strip " vc ")) ∧
    get_max_user_channels (some { suffix := some "vc" }) = DEFAULT_MAX_USER_SOAPBOXES :=
  ⟨single_field_update_frame.2.2.2.2.2.1 ⟨none, none⟩ " vc ",
   single_field_update_frame.2.2.2.2.2.2.2.2.2.2.1 { suffix := some "vc" } (by decide)⟩

/-- C9: the at-risk-resources query (`_check_delete_channels`, surfaced by
`soapbox check`) is a pure query: it returns exactly the voice channels
whose name ends with the current suffix — restricted to the given category
when one is supplied, otherwise all voice channels of the guild —
regardless of their occupancy, and the `soapbox check` command leaves the
config cache and store unchanged and performs only a reply (no create,
move or delete). -/
theorem check_delete_channels_pure_query :
    (∀ st g, (soapbox_check st g).1 = st) ∧
    (∀ st g a, a ∈ (soapbox_check st g).2 → a = Action.embedReply ∨ a = Action.errorReply) ∧
    (∀ cache g c, c ∈ (check_delete_channels cache g none true).getD [] ↔
       (c ∈ g.channels ∧ c.isVoice = true) ∧
         ends_with c.name (get_soapbox_suffix cache) = true) ∧
    (∀ cache g cid c, c ∈ (check_delete_channels cache g (some cid) false).getD [] ↔
       ((c ∈ g.channels ∧ c.category = some cid) ∧ c.isVoice = true) ∧
         ends_with c.name (get_soapbox_suffix cache) = true) := by
  refine ⟨?_, ?_, ?_, ?_⟩
  · intro st g
    simp only [soapbox_check]
    split
    · split <;> rfl
    · rfl
  · intro st g a ha
    simp only [soapbox_check] at ha
    split at ha
    · split at ha <;> simp_all
    · simp_all
  · intro cache g c
    simp [check_delete_channels, voice_channels, has_soapbox_suffix, List.mem_filter]
    tauto
  · intro cache g cid c
    simp [check_delete_channels, has_soapbox_suffix, List.mem_filter]
    tauto

/-- Witness for C9 at a concrete input: an occupied (4 members) voice
channel carrying the suffix is in the guild-wide at-risk list. -/
theorem check_delete_channels_pure_query_witness :
    (⟨3, "Party | ⏲", some 10, 4, true⟩ : Channel) ∈
      (check_delete_channels (some ⟨some 1, some 10, some 2, some "| ⏲"⟩)
        ⟨[⟨3, "Party | ⏲", some 10, 4, true⟩], [10]⟩ none true).getD [] :=
  (check_delete_channels_pure_query.2.2.1 (some ⟨some 1, some 10, some 2, some "| ⏲"⟩)
    ⟨[⟨3, "Party | ⏲", some 10, 4, true⟩], [10]⟩ ⟨3, "Party | ⏲", some 10, 4, true⟩).mpr
    (by decide)

/-- C1 counterexample: a trigger entry with the quota exhausted
(`maxPerUser = 1` and `"Ann #1 | ⏲"` already existing, so name allocation
returns no name) with every provider call succeeding.  The member is
notified, but processing does not stop: the eviction fallback runs and a
new voice channel (the uncategorized kick channel `"_DEL_Ann"`) is created
— refuting that no voice channel of any kind is created and that the
fallback runs only when the create call itself fails. -/
theorem quota_triggers_kick_channel_create :
    (get_soapbox_channel_name (some ⟨some 1, some 10, some 1, some "| ⏲"⟩)
      ⟨[⟨1, "Trigger", none, 1, true⟩, ⟨2, "Ann #1 | ⏲", some 10, 1, true⟩], [10]⟩ ⟨5, "Ann"⟩).1 = none ∧
    (on_voice_state_update ⟨some ⟨some 1, some 10, some 1, some "| ⏲"⟩, none⟩
      ⟨[⟨1, "Trigger", none, 1, true⟩, ⟨2, "Ann #1 | ⏲", some 10, 1, true⟩], [10]⟩ ⟨5, "Ann"⟩
      none (some ⟨1, "Trigger", none, 1, true⟩)
      ⟨true, true, true, true, true, true, true, true⟩).2 =
      [Action.notifyMember 5 (quota_message 1),
       Action.createChannel "_DEL_Ann" none,
       Action.moveMember 5 "_DEL_Ann",
       Action.deleteKick "_DEL_Ann",
       Action.logError LogTag.fallback] := by
  decide

/-- C1 (amended): on a trigger entry whose name allocation reports quota
exhaustion, the member is notified directly and no voice channel is created
in the target category; however, the create helper reports quota exhaustion
as a generic failure, so the eviction fallback protocol does run — when the
kick-create call succeeds, an uncategorized kick channel is (temporarily)
created.  The config cache and store are unchanged. -/
theorem quota_exhaustion_runs_eviction_fallback
    (st : CogState) (g : Guild) (m : Member) (before after : Option Channel)
    (o : Oracles) (cid : Nat)
    (hne : before ≠ after)
    (htrig : after_is_trigger st.cache g after = true)
    (hcat : resolve_category st.cache g = some cid)
    (hperm : o.perm_create = true)
    (hquota : (get_soapbox_channel_name st.cache g m).1 = none) :
    (on_voice_state_update st g m before after o).2 =
      Action.notifyMember m.id (quota_message (get_max_user_channels st.cache)) ::
        ((move_member_and_delete m o).2 ++ [Action.logError LogTag.fallback]) ∧
    (∀ n c, Action.createChannel n (some c) ∉ (on_voice_state_update st g m before after o).2) ∧
    (o.kick_create_ok = true →
      Action.createChannel ("_DEL_" ++ m.display_name) none ∈
        (on_voice_state_update st g m before after o).2) ∧
    (on_voice_state_update st g m before after o).1 = st := by
  have hp := get_soapbox_channel_name_quota st.cache g m hquota
  have hact : (on_voice_state_update st g m before after o).2 =
      Action.notifyMember m.id (quota_message (get_max_user_channels st.cache)) ::
        ((move_member_and_delete m o).2 ++ [Action.logError LogTag.fallback]) := by
    rw [on_voice_state_update, if_neg hne, htrig]
    simp [handle_trigger_entry, hcat, hperm, create_channel_and_move,
      create_soapbox_channel, hp]
  refine ⟨hact, ?_, ?_, on_voice_state_update_fst st g m before after o⟩
  · intro n c
    rw [hact]
    simp [no_cat_create_in_fallback m o n c]
  · intro hk
    rw [hact]
    simp [kick_create_mem_fallback m o hk]

/-- Witness for C1 at a concrete quota-exhausted trigger entry: the
uncategorized kick channel is created. -/
theorem quota_exhaustion_runs_eviction_fallback_witness :
    Action.createChannel "_DEL_Ann" none ∈
      (on_voice_state_update ⟨some ⟨some 1, some 10, some 1, some "| ⏲"⟩, none⟩
        ⟨[⟨1, "Trigger", none, 1, true⟩, ⟨2, "Ann #1 | ⏲", some 10, 1, true⟩], [10]⟩ ⟨5, "Ann"⟩
        none (some ⟨1, "Trigger", none, 1, true⟩)
        ⟨true, true, true, true, true, true, true, true⟩).2 :=
  (quota_exhaustion_runs_eviction_fallback
    ⟨some ⟨some 1, some 10, some 1, some "| ⏲"⟩, none⟩
    ⟨[⟨1, "Trigger", none, 1, true⟩, ⟨2, "Ann #1 | ⏲", some 10, 1, true⟩], [10]⟩ ⟨5, "Ann"⟩
    none (some ⟨1, "Trigger", none, 1, true⟩)
    ⟨true, true, true, true, true, true, true, true⟩ 10
    (by decide) (by decide) (by decide) (by decide) (by decide)).2.2.1 (by decide)

/-- C5 counterexample: an exit event whose before-channel is managed under
the current config and empty on the live re-query, but the bot lacks the
manage-category permission — the channel is not deleted (only the
permission error is logged), refuting the claimed "if and only if". -/
theorem empty_managed_channel_not_deleted_without_permission :
    is_soapbox_channel (some ⟨some 1, some 10, some 2, some "| ⏲"⟩)
      ⟨[⟨1, "Trigger", none, 0, true⟩, ⟨7, "Ann #1 | ⏲", some 10, 0, true⟩], [10]⟩
      ⟨7, "Ann #1 | ⏲", some 10, 0, true⟩ = true ∧
    channel_is_empty ⟨[⟨1, "Trigger", none, 0, true⟩, ⟨7, "Ann #1 | ⏲", some 10, 0, true⟩], [10]⟩
      ⟨7, "Ann #1 | ⏲", some 10, 0, true⟩ = some true ∧
    (on_voice_state_update ⟨some ⟨some 1, some 10, some 2, some "| ⏲"⟩, none⟩
      ⟨[⟨1, "Trigger", none, 0, true⟩, ⟨7, "Ann #1 | ⏲", some 10, 0, true⟩], [10]⟩
      ⟨5, "Ann"⟩ (some ⟨7, "Ann #1 | ⏲", some 10, 0, true⟩) none
      ⟨true, false, true, true, true, true, true, true⟩).2 =
      [Action.logError LogTag.cannotManageDelete] := by
  decide

/-- C5 (amended): on an occupancy event with before-channel `b`, the exit
rule deletes `b` iff the channel actually changed, the event is not a
trigger entry (rule A takes precedence and returns first), `b` is managed
under the current config, the occupant count re-queried live from current
guild state (not the event's `before` snapshot) is zero, `b` has a category
(with an uncategorized managed channel the source's permission check raises
and aborts), the bot's manage-category permission check passes, and the
provider delete call succeeds; when everything holds but the delete call
fails, the error is logged and nothing is retried. -/
theorem exit_rule_delete_characterization (st : CogState) (g : Guild) (m : Member)
    (b : Channel) (after : Option Channel) (o : Oracles) :
    (Action.deleteChannel b.id ∈ (on_voice_state_update st g m (some b) after o).2 ↔
      (some b ≠ after ∧ after_is_trigger st.cache g after = false ∧
       is_soapbox_channel st.cache g b = true ∧ channel_is_empty g b = some true ∧
       b.category.isSome = true ∧ o.perm_delete = true ∧ o.delete_ok = true)) ∧
    (some b ≠ after → after_is_trigger st.cache g after = false →
     is_soapbox_channel st.cache g b = true → channel_is_empty g b = some true →
     b.category.isSome = true → o.perm_delete = true → o.delete_ok = false →
     (on_voice_state_update st g m (some b) after o).2 =
       [Action.logError LogTag.deleteFailed]) := by
  constructor
  · by_cases hba : (some b : Option Channel) = after
    · simp [on_voice_state_update, hba]
    · by_cases htr : after_is_trigger st.cache g after = true
      · simp [on_voice_state_update, hba, htr, no_deleteChannel_in_trigger_entry]
      · have htr2 : after_is_trigger st.cache g after = false := by
          simpa using htr
        rw [on_voice_state_update, if_neg hba, htr2]
        simp only [Bool.false_eq_true, if_false, handle_exit]
        by_cases hcond : (is_soapbox_channel st.cache g b &&
            (channel_is_empty g b == some true)) = true
        · have his : is_soapbox_channel st.cache g b = true := by
            have := hcond; simp [Bool.and_eq_true] at this; exact this.1
          have hemp : channel_is_empty g b = some true := by
            have := hcond; simp [Bool.and_eq_true] at this; exact this.2
          rw [if_pos hcond]
          rcases hcat : b.category with _ | cid
          · simp [hcat, hba, htr2, his, hemp]
          · cases hpd : o.perm_delete <;> cases hdo : o.delete_ok <;>
              simp [hcat, hba, htr2, his, hemp, hpd, hdo]
        · rw [if_neg hcond]
          simp only [List.not_mem_nil, false_iff]
          intro h
          exact hcond (by simp [Bool.and_eq_true, h.2.2.1, h.2.2.2.1])
  · intro h1 h2 h3 h4 h5 h6 h7
    obtain ⟨cid, hcid⟩ := Option.isSome_iff_exists.mp h5
    rw [on_voice_state_update, if_neg h1, h2]
    simp [handle_exit, h3, h4, hcid, h6, h7]

/-- Witness for C5 at a concrete input: the before snapshot claims five
occupants, but the live guild state shows the channel empty, every
condition holds, and the delete is performed. -/
theorem exit_rule_delete_characterization_witness :
    Action.deleteChannel 7 ∈
      (on_voice_state_update ⟨some ⟨some 1, some 10, some 2, some "| ⏲"⟩, none⟩
        ⟨[⟨1, "Trigger", none, 0, true⟩, ⟨7, "Ann #1 | ⏲", some 10, 0, true⟩], [10]⟩
        ⟨5, "Ann"⟩ (some ⟨7, "Ann #1 | ⏲", some 10, 5, true⟩) none
        ⟨true, true, true, true, true, true, true, true⟩).2 :=
  (exit_rule_delete_characterization ⟨some ⟨some 1, some 10, some 2, some "| ⏲"⟩, none⟩
    ⟨[⟨1, "Trigger", none, 0, true⟩, ⟨7, "Ann #1 | ⏲", some 10, 0, true⟩], [10]⟩
    ⟨5, "Ann"⟩ ⟨7, "Ann #1 | ⏲", some 10, 5, true⟩ none
    ⟨true, true, true, true, true, true, true, true⟩).1.mpr (by decide)

/-- C8 counterexample: the handler has no guild-scoped lock, so the
interleaving "task one allocates, task two allocates, task one creates,
task two creates" — possible because the allocation scan and the awaited
create call are separated by a suspension point — makes two concurrent
trigger entries for members displaying "Ann" (quota 2) both allocate slot
1 and create two channels with the same name, refuting that two concurrent
events for the same guild can never double-allocate the same name slot. -/
theorem unlocked_interleaving_double_allocates :
    (runRace "Ann" "| ⏲" 2 [true, false, true, false] initRace).alloc1 = some "Ann #1 | ⏲" ∧
    (runRace "Ann" "| ⏲" 2 [true, false, true, false] initRace).alloc2 = some "Ann #1 | ⏲" ∧
    (runRace "Ann" "| ⏲" 2 [true, false, true, false] initRace).names =
      ["Ann #1 | ⏲", "Ann #1 | ⏲"] := by
  decide

/-- C8 (amended): `on_voice_state_update` acquires no lock of any kind;
rule A's body suspends between the name-allocation scan and the completion
of the channel-creation call, so for any display name, suffix and positive
quota, the interleaved schedule of two concurrent trigger entries in the
same guild allocates the same slot-1 name to both tasks and commits two
channels with that name. -/
theorem no_lock_race_allows_duplicate_slot (d sfx : String) (mx : Int) (h : 1 ≤ mx) :
    (runRace d sfx mx [true, false, true, false] initRace).alloc1 =
      some (soapbox_name d 1 sfx) ∧
    (runRace d sfx mx [true, false, true, false] initRace).alloc2 =
      some (soapbox_name d 1 sfx) ∧
    (runRace d sfx mx [true, false, true, false] initRace).names =
      [soapbox_name d 1 sfx, soapbox_name d 1 sfx] := by
  obtain ⟨k, hk⟩ : ∃ k, mx.toNat = k + 1 := ⟨mx.toNat - 1, by omega⟩
  have halloc : allocName [] d sfx mx = some (soapbox_name d 1 sfx) := by
    rw [allocName, hk, allocFrom]
    simp [channel_exists, raceGuild, voice_channels]
  simp [runRace, raceStepA, raceStepB, initRace, halloc]

/-- Witness for C8 at a concrete input: display name "Bob", suffix "| ⏲",
quota 3. -/
theorem no_lock_race_allows_duplicate_slot_witness :
    (runRace "Bob" "| ⏲" 3 [true, false, true, false] initRace).alloc1 =
      some (soapbox_name "Bob" 1 "| ⏲") ∧
    (runRace "Bob" "| ⏲" 3 [true, false, true, false] initRace).alloc2 =
      some (soapbox_name "Bob" 1 "| ⏲") ∧
    (runRace "Bob" "| ⏲" 3 [true, false, true, false] initRace).names =
      [soapbox_name "Bob" 1 "| ⏲", soapbox_name "Bob" 1 "| ⏲"] :=
  no_lock_race_allows_duplicate_slot "Bob" "| ⏲" 3 (by decide)

end Soapbox
